/-
Verification of the quota-aware retrieval and incremental-merge persistence
subsystem of the COPASA tweet harvester (src/twitter_scraper.py), as a shallow
embedding in Lean 4.

Conventions of the embedding:
  * Python dicts persisted as JSON are modelled as association lists; a JSON
    ledger file is `FileContent` (absent / corrupt / valid contents).
  * Wall-clock derived values (the current period key `_usage_key`, the time
    window) are passed as explicit parameters.
  * External calls (the tweepy client, pandas I/O) are modelled by their
    observable behavior; the successive responses of the search endpoint are
    an explicit list, and the pandas `sort_values` library call is modelled by
    the contract its default configuration documents (see `sortValuesContract`).
-/
import Mathlib

/-- One month's entry in `usage.json`: the dict `{"retrieved": r, "cap": c}`
kept per period key by `TwitterScraper.add_usage`. Python ints are `Int`. -/
structure MonthData where
  retrieved : Int
  cap : Int
  deriving DecidableEq, Repr

/-- The parsed contents of `usage.json`: a JSON object mapping period keys
(strings such as "2025-11" produced by `_usage_key`) to month entries.
Modelled as an association list in insertion order, like a Python dict. -/
abbrev Usage := List (String × MonthData)

/-- State of a file on disk: missing, present but unparseable (this also
covers an empty or partially written file, which is invalid JSON), or present
with valid parsed contents. -/
inductive FileContent
  | absent
  | corrupt
  | valid (u : Usage)
  deriving DecidableEq, Repr

/-- Python `usage.get(key, ...)` on the parsed dict: the first entry whose key
matches, if any. -/
def getEntry (usage : Usage) (key : String) : Option MonthData :=
  (usage.find? (fun e => e.1 == key)).map (fun e => e.2)

/-- Python `usage[key] = v`: overwrite the entry when the key is present,
append a new entry otherwise (dict update semantics). -/
def setEntry (usage : Usage) (key : String) (v : MonthData) : Usage :=
  if (usage.find? (fun e => e.1 == key)).isSome then
    usage.map (fun e => if e.1 == key then (key, v) else e)
  else
    usage ++ [(key, v)]

/-- Python `int(usage.get(key, {}).get("retrieved", 0))`, as evaluated by both
`add_usage` and `remaining_quota`. -/
def retrievedD (usage : Usage) (key : String) : Int :=
  match getEntry usage key with
  | some m => m.retrieved
  | none => 0

/-- `TwitterScraper.load_usage`: if the file exists, try to parse it and fall
back to `{}` on any exception; return `{}` when the file is missing.  Being a
total Lean function, it returns on every file state — the "never raises"
part of the contract. -/
def load_usage : FileContent → Usage
  | .absent => []
  | .corrupt => []
  | .valid u => u

/-- Core of `TwitterScraper.add_usage`: read the current month entry (default
`{"retrieved": 0, "cap": monthly_cap}`), add `count` to `retrieved`, overwrite
`cap`, and store the entry back under `key`.  The wall-clock period key
`_usage_key()` is the explicit `key` parameter. -/
def add_usage_pure (usage : Usage) (key : String) (count : Int) (monthly_cap : Int) : Usage :=
  let month := (getEntry usage key).getD ⟨0, monthly_cap⟩
  setEntry usage key ⟨month.retrieved + count, monthly_cap⟩

/-- `TwitterScraper.add_usage` at file level: `load_usage`, update, then
`save_usage`, which leaves the file valid with the new contents. -/
def add_usage (fs : FileContent) (key : String) (count : Int) (monthly_cap : Int) : FileContent :=
  .valid (add_usage_pure (load_usage fs) key count monthly_cap)

/-- `TwitterScraper.remaining_quota`: `max(0, monthly_cap - used)` where
`used` is the current period's retrieved count in the loaded ledger. -/
def remaining_quota (fs : FileContent) (key : String) (monthly_cap : Int) : Int :=
  let usage := load_usage fs
  max 0 (monthly_cap - retrievedD usage key)

/-- A sequence of `add_usage` calls in one period `key`, in order. -/
def apply_usages (fs : FileContent) (key : String) (monthly_cap : Int) (cs : List Int) :
    FileContent :=
  cs.foldl (fun s c => add_usage s key c monthly_cap) fs

/-- File-system operations relevant to persisting the ledger, to state how
`save_usage` behaves when interrupted. -/
inductive FsOp
  | truncateTarget
  | writeTargetContent (u : Usage)
  | writeTempContent (u : Usage)
  | renameTempOverTarget
  deriving DecidableEq, Repr

/-- The ledger path plus a scratch sibling path (as a temp-file pattern
would use). -/
structure FileSys where
  target : FileContent
  temp : FileContent
  deriving DecidableEq, Repr

/-- Effect of one operation.  `truncateTarget` models `open(p, "w")`, which
empties the file in place (an empty file is invalid JSON, hence `corrupt`);
`writeTargetContent` models a completed `json.dump` into that handle;
the temp-write and rename operations model the write-new-then-replace
pattern. -/
def applyOp (fs : FileSys) : FsOp → FileSys
  | .truncateTarget => { fs with target := .corrupt }
  | .writeTargetContent u => { fs with target := .valid u }
  | .writeTempContent u => { fs with temp := .valid u }
  | .renameTempOverTarget => { target := fs.temp, temp := .absent }

/-- Run a list of file operations in order. -/
def runOps (fs : FileSys) (ops : List FsOp) : FileSys :=
  ops.foldl applyOp fs

/-- Effect trace of `TwitterScraper.save_usage(usage)`: `open(p, "w")`
truncates the ledger file in place, then `json.dump` writes the new
contents into it. -/
def save_usage_ops (usage : Usage) : List FsOp :=
  [.truncateTarget, .writeTargetContent usage]

/-- Stated from the spec's words, for comparison with `save_usage_ops`: a
persist routine is crash-safe in the write-new-then-replace sense when, if the
write fails mid-way (i.e. only a prefix of its operations runs), the target
file holds either the previously valid contents or the complete new
contents — never a corrupted in-between state. -/
def crashPreservesLedger (ops : List FsOp) (newUsage : Usage) : Prop :=
  ∀ (fs : FileSys) (k : Nat),
    (runOps fs (ops.take k)).target = fs.target ∨
    (runOps fs (ops.take k)).target = .valid newUsage

/-- One harvested tweet row, with the fields `search_tweets` builds for each
hit that are relevant to merging and sorting: `tweet_id` is the dedup key and
`created_at` the sort key.  `created_at` is the value after the
`pd.to_datetime(..., errors="coerce")` normalization that
`save_or_append_csv` applies before sorting: `some t` for a parseable
timestamp, `none` for `NaT` (unparseable).  The remaining text/author/metric
columns ride along unexamined and are represented by `text`, which is enough
to tell two same-id rows apart. -/
structure Record where
  tweet_id : Nat
  text : String
  created_at : Option Int
  deriving DecidableEq, Repr

/-- Comparison on sort keys as `sort_values("created_at", ascending=False)`
orders rows: larger timestamps first, `NaT` after every real timestamp
(pandas puts missing keys last by default), `NaT` tied with `NaT`. -/
def keyLE : Option Int → Option Int → Bool
  | some x, some y => decide (y ≤ x)
  | some _, none => true
  | none, some _ => false
  | none, none => true

/-- Row order induced by `keyLE` on the `created_at` column. -/
def RecLE (a b : Record) : Prop :=
  keyLE a.created_at b.created_at = true

instance : DecidableRel RecLE := fun a b =>
  inferInstanceAs (Decidable (keyLE a.created_at b.created_at = true))

instance : IsTotal Record RecLE := by
  constructor
  intro a b
  unfold RecLE keyLE
  cases a.created_at <;> cases b.created_at
  all_goals simp
  all_goals omega

instance : IsTrans Record RecLE := by
  constructor
  intro a b c
  unfold RecLE keyLE
  cases a.created_at <;> cases b.created_at <;> cases c.created_at
  all_goals simp
  all_goals omega

/-- Documented contract of the `merged.sort_values("created_at",
ascending=False, inplace=True)` call: the result is a permutation of the
input ordered by `RecLE`.  The call's default `kind='quicksort'` guarantees
nothing more — in particular pandas documents only `mergesort`/`stable` as
stable kinds — so theorems about the merge quantify over every implementation
satisfying this contract. -/
def sortValuesContract (f : List Record → List Record) : Prop :=
  ∀ l : List Record, (f l).Perm l ∧ (f l).Sorted RecLE

/-- An executable implementation satisfying `sortValuesContract`, used to
instantiate theorems on concrete inputs. -/
def sort_values (l : List Record) : List Record :=
  l.insertionSort RecLE

/-- Scan of `drop_duplicates(keep='first')`: `seen` holds the `tweet_id`s of
rows already kept; a row is kept exactly when its id has not appeared in an
earlier row. -/
def drop_duplicates_aux (seen : List Nat) : List Record → List Record
  | [] => []
  | r :: rs =>
      if r.tweet_id ∈ seen then drop_duplicates_aux seen rs
      else r :: drop_duplicates_aux (r.tweet_id :: seen) rs

/-- `merged.drop_duplicates(subset=["tweet_id"], inplace=True)` with the
default `keep='first'`: keep each row whose `tweet_id` has not appeared in an
earlier row. -/
def drop_duplicates (l : List Record) : List Record :=
  drop_duplicates_aux [] l

/-- The merged frame `save_or_append_csv` builds before sorting: when the
CSV exists, the concatenation `pd.concat([old, df])` deduplicated by
`tweet_id`; on a first run, just `df` (no dedup is applied). -/
def merged_records (oldFile : Option (List Record)) (df : List Record) : List Record :=
  match oldFile with
  | some old => drop_duplicates (old ++ df)
  | none => df

/-- `TwitterScraper.save_or_append_csv(df, path)`: return `0` without
touching the file when `df` is empty; otherwise build `merged_records`,
sort it with the `sort_values` call (here the parameter `sortImpl`, any
implementation of the library call's contract), write it wholesale, and
return `len(df)`.  First component: the file contents after the call
(`none` = still absent); second: the returned count. -/
def save_or_append_csv (sortImpl : List Record → List Record)
    (oldFile : Option (List Record)) (df : List Record) :
    Option (List Record) × Nat :=
  if df.isEmpty then (oldFile, 0)
  else (some (sortImpl (merged_records oldFile df)), df.length)

/-- Outcome of one `client.search_recent_tweets` call: a raised
`TweepyException`, or a response carrying the mapped records of `resp.data`
and `resp.meta.get("next_token")`.  (The per-item mapping from raw hits to
`Record` rows, including the author lookup in `resp.includes`, happens before
this point and is not re-examined by the loop.) -/
inductive FetchResult
  | err
  | page (items : List Record) (next_token : Option String)
  deriving DecidableEq, Repr

/-- Result of `_counts_endpoint`: a supported estimate or a structured
"unsupported" value carrying the error text. -/
inductive CountsInfo
  | supported (total_estimated : Nat)
  | unsupported (error : String)
  deriving DecidableEq, Repr

/-- Why the fetch loop of `search_tweets` stopped.  This is an observation
made by the embedding about the run (the spec's "terminal reason"); the
source computes no such value. -/
inductive TermReason
  | errored
  | exhausted
  | singlePageDone
  | capped
  deriving DecidableEq, Repr

/-- What the loop of `search_tweets` has produced when it stops: the
`collected` rows and `pages` counter of the source, plus two observations the
embedding keeps for verification — the page size passed to each issued fetch
(`requests`) and the `TermReason`.  Neither observation feeds back into the
source-visible fields. -/
structure LoopResult where
  collected : List Record
  pages : Nat
  requests : List Nat
  reason : TermReason
  deriving DecidableEq, Repr

/-- The `while True` loop of `TwitterScraper.search_tweets`.  `responses`
lists the successive outcomes of the external search endpoint; a run that
would fetch past the end of the list is modelled as hitting a failure.
Faithful to the source's order: on exception break (pages not incremented);
increment `pages`; on an empty page break ("Page returned no data"); append
the page's rows; read `next_token`; break when pagination was not requested,
then when no token remains ("No more pages"), then when
`len(collected) >= total_limit` ("Reached total_limit cap"); otherwise
loop. -/
def searchLoop (pageSize : Nat) (paginate : Bool) (total_limit : Nat) :
    List FetchResult → List Record → Nat → List Nat → LoopResult
  | [], collected, pages, reqs =>
      ⟨collected, pages, reqs ++ [pageSize], .errored⟩
  | .err :: _, collected, pages, reqs =>
      ⟨collected, pages, reqs ++ [pageSize], .errored⟩
  | .page items tok :: rest, collected, pages, reqs =>
      let pages' := pages + 1
      let reqs' := reqs ++ [pageSize]
      if items.isEmpty then ⟨collected, pages', reqs', .exhausted⟩
      else
        let collected' := collected ++ items
        if !paginate then ⟨collected', pages', reqs', .singlePageDone⟩
        else
          match tok with
          | none => ⟨collected', pages', reqs', .exhausted⟩
          | some _ =>
              if total_limit ≤ collected'.length then ⟨collected', pages', reqs', .capped⟩
              else searchLoop pageSize paginate total_limit rest collected' pages' reqs'

/-- The `meta_out` dict `search_tweets` returns: run counters plus an echo of
the session's configuration.  `start_time`/`end_time` are the stringified
window bounds. -/
structure MetaOut where
  pages : Nat
  collected : Nat
  query : String
  counts_endpoint : CountsInfo
  pagination_used : Bool
  total_limit : Nat
  start_time : String
  end_time : String
  since_id : Option Nat
  deriving DecidableEq, Repr

/-- Full outcome of one `search_tweets` session: the returned pair
`(df, meta_out)` as `df`/`meta`, plus the embedding's two observations from
`LoopResult`. -/
structure SearchOutcome where
  df : List Record
  meta : MetaOut
  requests : List Nat
  reason : TermReason
  deriving DecidableEq, Repr

/-- `TwitterScraper.search_tweets`: clamp the page size with
`max_results = min(max_results, 100)`, ask `_counts_endpoint` for an
informational estimate (`counts_info`, an input of the embedding since it is
an external response), run the fetch loop from empty state, and assemble
`df` and `meta_out`. -/
def search_tweets (responses : List FetchResult) (query : String) (max_results : Nat)
    (paginate : Bool) (total_limit : Nat) (counts_info : CountsInfo)
    (start_time end_time : String) (since_id : Option Nat) : SearchOutcome :=
  let ms := min max_results 100
  let r := searchLoop ms paginate total_limit responses [] 0 []
  { df := r.collected
    meta := { pages := r.pages, collected := r.collected.length, query := query,
              counts_endpoint := counts_info, pagination_used := paginate,
              total_limit := total_limit, start_time := start_time,
              end_time := end_time, since_id := since_id }
    requests := r.requests
    reason := r.reason }

/-- The two files `main` touches after the session: the tweets CSV and the
usage ledger. -/
structure Store where
  csvFile : Option (List Record)
  usageFile : FileContent
  deriving DecidableEq, Repr

/-- Tail of `main` after `search_tweets` returns: `newly_added =
save_or_append_csv(df, out_csv)` followed unconditionally by
`add_usage(newly_added, monthly_cap)`.  Returns the new store state and
`newly_added`. -/
def main_tail (sortImpl : List Record → List Record) (usage_key : String)
    (monthly_cap : Int) (df : List Record) (st : Store) : Store × Nat :=
  let save := save_or_append_csv sortImpl st.csvFile df
  let usageFile' := add_usage st.usageFile usage_key (Int.ofNat save.2) monthly_cap
  (⟨save.1, usageFile'⟩, save.2)

/-! ### Concrete rows used to instantiate theorems -/

def recA : Record := ⟨1, "copasa privatizada", some 100⟩

def recB : Record := ⟨1, "copasa privatizada rt", some 90⟩

def recC : Record := ⟨2, "agua e esgoto", some 80⟩

def recD : Record := ⟨3, "tarifa", some 50⟩

def recE : Record := ⟨4, "zema", some 50⟩

/-! ### Ledger lemmas -/

theorem getEntry_map_replace (u : Usage) (k : String) (v : MonthData)
    (h : (u.find? (fun e => e.1 == k)).isSome = true) :
    getEntry (u.map (fun e => if e.1 == k then (k, v) else e)) k = some v := by
  induction u with
  | nil => simp at h
  | cons e rest ih =>
    rw [List.map_cons]
    by_cases he : (e.1 == k) = true
    · rw [if_pos he]
      unfold getEntry
      simp only [List.find?_cons]
      simp
    · have he' : (e.1 == k) = false := by simpa using he
      rw [if_neg he]
      unfold getEntry
      simp only [List.find?_cons, he'] at h ⊢
      exact ih h

theorem getEntry_setEntry_same (u : Usage) (k : String) (v : MonthData) :
    getEntry (setEntry u k v) k = some v := by
  unfold setEntry
  by_cases h : (u.find? (fun e => e.1 == k)).isSome
  · rw [if_pos h]
    exact getEntry_map_replace u k v h
  · rw [if_neg h]
    have hn : u.find? (fun e => e.1 == k) = none := by
      cases hf : u.find? (fun e => e.1 == k) with
      | none => rfl
      | some x => rw [hf] at h; simp at h
    simp [getEntry, List.find?_append, hn]

theorem getEntry_setEntry_other (u : Usage) (k k2 : String) (v : MonthData)
    (hne : k2 ≠ k) :
    getEntry (setEntry u k v) k2 = getEntry u k2 := by
  have hkk2 : (k == k2) = false := by
    simp only [beq_eq_false_iff_ne]
    exact fun hx => hne hx.symm
  unfold setEntry
  by_cases h : (u.find? (fun e => e.1 == k)).isSome
  · rw [if_pos h]
    clear h
    induction u with
    | nil => rfl
    | cons e rest ih =>
      rw [List.map_cons]
      by_cases he : (e.1 == k) = true
      · have he1 : e.1 = k := by simpa using he
        rw [if_pos he]
        unfold getEntry
        simp only [List.find?_cons, he1, hkk2]
        exact ih
      · rw [if_neg he]
        unfold getEntry
        simp only [List.find?_cons]
        by_cases he2 : (e.1 == k2) = true
        · simp [he2]
        · have he2' : (e.1 == k2) = false := by simpa using he2
          simp only [he2']
          exact ih
  · rw [if_neg h]
    simp [getEntry, List.find?_append, hkk2]

theorem retrievedD_add_usage_pure (u : Usage) (k : String) (c cap : Int) :
    retrievedD (add_usage_pure u k c cap) k = retrievedD u k + c := by
  unfold add_usage_pure retrievedD
  rw [getEntry_setEntry_same]
  cases h : getEntry u k <;> simp [h]

theorem getEntry_add_usage_pure_other (u : Usage) (k k2 : String) (c cap : Int)
    (hne : k2 ≠ k) :
    getEntry (add_usage_pure u k c cap) k2 = getEntry u k2 :=
  getEntry_setEntry_other u k k2 _ hne

theorem apply_usages_cons (fs : FileContent) (k : String) (cap c : Int) (cs : List Int) :
    apply_usages fs k cap (c :: cs) = apply_usages (add_usage fs k c cap) k cap cs := rfl

theorem retrievedD_apply_usages (fs : FileContent) (k : String) (cap : Int) (cs : List Int) :
    retrievedD (load_usage (apply_usages fs k cap cs)) k
      = retrievedD (load_usage fs) k + cs.sum := by
  induction cs generalizing fs with
  | nil => simp [apply_usages]
  | cons c cs ih =>
    rw [apply_usages_cons, ih]
    have hl : load_usage (add_usage fs k c cap) = add_usage_pure (load_usage fs) k c cap := rfl
    rw [hl, retrievedD_add_usage_pure, List.sum_cons]
    omega

theorem getEntry_apply_usages_other (fs : FileContent) (k k2 : String) (cap : Int)
    (cs : List Int) (hne : k2 ≠ k) :
    getEntry (load_usage (apply_usages fs k cap cs)) k2
      = getEntry (load_usage fs) k2 := by
  induction cs generalizing fs with
  | nil => rfl
  | cons c cs ih =>
    rw [apply_usages_cons, ih]
    exact getEntry_add_usage_pure_other (load_usage fs) k k2 c cap hne

/-! ### Claim C9 -/

/-- C9: for every state of the ledger store — file absent, present and valid,
or present but unreadable/corrupt — `load_usage` never raises (it is a total
function) and returns the parsed ledger when readable and the empty ledger
otherwise. -/
theorem load_usage_never_raises (u : Usage) :
    load_usage .absent = [] ∧ load_usage .corrupt = [] ∧ load_usage (.valid u) = u :=
  ⟨rfl, rfl, rfl⟩

/-! ### Claim C6 -/

/-- C6: for every cap and every sequence of `add_usage` calls within one
period `key` (starting from a ledger with no entry for that period),
`remaining_quota` for that period equals `max 0 (cap - sum of recorded
counts)`, and a different period `key2` is unaffected: its remaining quota is
the full `max 0 cap`. -/
theorem remaining_quota_period_sum (fs0 : FileContent) (key key2 : String) (cap : Int)
    (cs : List Int) (h0 : getEntry (load_usage fs0) key = none) (hne : key2 ≠ key)
    (h02 : getEntry (load_usage fs0) key2 = none) :
    remaining_quota (apply_usages fs0 key cap cs) key cap = max 0 (cap - cs.sum) ∧
    remaining_quota (apply_usages fs0 key cap cs) key2 cap = max 0 cap := by
  constructor
  · simp only [remaining_quota, retrievedD_apply_usages]
    have h0' : retrievedD (load_usage fs0) key = 0 := by
      unfold retrievedD; rw [h0]
    rw [h0', zero_add]
  · simp only [remaining_quota, retrievedD]
    rw [getEntry_apply_usages_other fs0 key key2 cap cs hne, h02]
    simp

/-- Witness for C6: `recordUsage(5, cap=10)` then `recordUsage(3, cap=10)` in
period "2025-10" leaves `remaining_quota` at `2` there and at `10` in period
"2025-11". -/
theorem remaining_quota_period_sum_witness :
    remaining_quota (apply_usages .absent "2025-10" 10 [5, 3]) "2025-10" 10 = 2 ∧
    remaining_quota (apply_usages .absent "2025-10" 10 [5, 3]) "2025-11" 10 = 10 := by
  have h := remaining_quota_period_sum FileContent.absent "2025-10" "2025-11" 10 [5, 3]
    rfl (by decide) rfl
  constructor
  · rw [h.1]; decide
  · rw [h.2]; decide

/-! ### Claim C4 -/

def usageOld : Usage := [("2025-09", ⟨7, 1500⟩)]

def usageNew : Usage := [("2025-09", ⟨7, 1500⟩), ("2025-10", ⟨3, 1500⟩)]

/-- C4 counterexample: the persist routine of the ledger is not
write-new-then-replace.  Concretely, when `save_usage` starts from a valid
ledger `usageOld` and fails after its first operation (the in-place
truncation `open(p, "w")`), the ledger file is corrupt — neither the old nor
the new contents — so the claimed crash-safety property fails. -/
theorem save_usage_not_crash_safe :
    ¬ crashPreservesLedger (save_usage_ops usageNew) usageNew ∧
    (runOps ⟨.valid usageOld, .absent⟩ ((save_usage_ops usageNew).take 1)).target
      = .corrupt := by
  constructor
  · intro h
    have hc := h ⟨.valid usageOld, .absent⟩ 1
    revert hc
    decide
  · rfl

/-- C4 (amended): `save_usage` persists the ledger by truncating the file in
place and then writing the new contents, so a run interrupted after `k`
operations leaves the previous ledger only when nothing ran (`k = 0`), leaves
a corrupt (empty) file when interrupted between truncation and write
(`k = 1`), and leaves the new ledger otherwise — a mid-way failure destroys
the previously valid ledger rather than leaving it intact. -/
theorem save_usage_crash_states (fs : FileSys) (u : Usage) (k : Nat) :
    (runOps fs ((save_usage_ops u).take k)).target =
      if k = 0 then fs.target else if k = 1 then .corrupt else .valid u := by
  match k with
  | 0 => rfl
  | 1 => rfl
  | (n + 2) =>
    have ht : (save_usage_ops u).take (n + 2) = save_usage_ops u :=
      List.take_of_length_le (by simp [save_usage_ops])
    rw [ht]
    rfl

/-! ### Merge lemmas -/

theorem sort_values_contract : sortValuesContract sort_values :=
  fun l => ⟨List.perm_insertionSort RecLE l, List.sorted_insertionSort RecLE l⟩

theorem drop_duplicates_aux_spec (l : List Record) :
    ∀ (seen : List Nat) (r : Record), r ∈ drop_duplicates_aux seen l →
      r.tweet_id ∉ seen ∧ l.find? (fun s => s.tweet_id == r.tweet_id) = some r := by
  induction l with
  | nil =>
    intro seen r h
    simp [drop_duplicates_aux] at h
  | cons a rs ih =>
    intro seen r h
    simp only [drop_duplicates_aux] at h
    by_cases ha : a.tweet_id ∈ seen
    · rw [if_pos ha] at h
      obtain ⟨hns, hfind⟩ := ih seen r h
      have hane : (a.tweet_id == r.tweet_id) = false := by
        simp only [beq_eq_false_iff_ne]
        intro hx
        exact hns (hx ▸ ha)
      refine ⟨hns, ?_⟩
      simp only [List.find?_cons, hane]
      exact hfind
    · rw [if_neg ha] at h
      rcases List.mem_cons.mp h with h1 | h2
      · subst h1
        refine ⟨ha, ?_⟩
        simp [List.find?_cons]
      · obtain ⟨hns, hfind⟩ := ih _ r h2
        have hrs : r.tweet_id ∉ seen := fun hx => hns (List.mem_cons_of_mem _ hx)
        have hra : r.tweet_id ≠ a.tweet_id := by
          intro hx
          exact hns (by rw [hx]; exact List.mem_cons_self _ _)
        have hane : (a.tweet_id == r.tweet_id) = false := by
          simp only [beq_eq_false_iff_ne]
          exact fun hx => hra hx.symm
        refine ⟨hrs, ?_⟩
        simp only [List.find?_cons, hane]
        exact hfind

theorem find?_drop_duplicates (l : List Record) (r : Record)
    (h : r ∈ drop_duplicates l) :
    l.find? (fun s => s.tweet_id == r.tweet_id) = some r :=
  (drop_duplicates_aux_spec l [] r h).2

theorem mem_drop_duplicates (l : List Record) (r : Record)
    (h : r ∈ drop_duplicates l) : r ∈ l :=
  List.mem_of_find?_eq_some (find?_drop_duplicates l r h)

theorem nodup_ids_drop_duplicates_aux (l : List Record) :
    ∀ seen : List Nat, ((drop_duplicates_aux seen l).map (fun r => r.tweet_id)).Nodup := by
  induction l with
  | nil =>
    intro seen
    simp [drop_duplicates_aux]
  | cons a rs ih =>
    intro seen
    simp only [drop_duplicates_aux]
    by_cases ha : a.tweet_id ∈ seen
    · rw [if_pos ha]
      exact ih seen
    · rw [if_neg ha]
      simp only [List.map_cons, List.nodup_cons]
      refine ⟨?_, ih _⟩
      intro hmem
      rcases List.mem_map.mp hmem with ⟨x, hx, hxid⟩
      have hns := (drop_duplicates_aux_spec rs _ x hx).1
      exact hns (by rw [hxid]; exact List.mem_cons_self _ _)

theorem nodup_ids_drop_duplicates (l : List Record) :
    ((drop_duplicates l).map (fun r => r.tweet_id)).Nodup :=
  nodup_ids_drop_duplicates_aux l []

theorem save_or_append_csv_of_ne_nil (sortImpl : List Record → List Record)
    (oldFile : Option (List Record)) (df : List Record) (hdf : df ≠ []) :
    save_or_append_csv sortImpl oldFile df
      = (some (sortImpl (merged_records oldFile df)), df.length) := by
  cases df with
  | nil => exact absurd rfl hdf
  | cons d ds => simp [save_or_append_csv]

/-! ### Claim C1 -/

/-- C1 counterexample: persisting `[recA]` and then calling the merge again
with the very same batch returns `1` = `len(df)`, not the `0` the claim
requires for a batch whose identifier is already present. -/
theorem save_repeat_returns_len_not_zero :
    save_or_append_csv sort_values none [recA] = (some [recA], 1) ∧
    save_or_append_csv sort_values (some [recA]) [recA] = (some [recA], 1) ∧
    (1 : Nat) ≠ 0 :=
  ⟨by decide, by decide, by decide⟩

/-- C1 (amended): for every non-empty batch, `save_or_append_csv` returns the
raw length of the batch, regardless of how many of its identifiers were
already persisted.  (The source charges the Usage Ledger with this raw count;
repeats are counted again.) -/
theorem save_returns_raw_length (sortImpl : List Record → List Record)
    (oldFile : Option (List Record)) (df : List Record) (hdf : df ≠ []) :
    (save_or_append_csv sortImpl oldFile df).2 = df.length := by
  rw [save_or_append_csv_of_ne_nil sortImpl oldFile df hdf]

/-- Witness for the amended C1: a two-row batch returns 2 even though one of
its ids is already persisted. -/
theorem save_returns_raw_length_witness :
    ([recB, recC] : List Record) ≠ [] ∧
    (save_or_append_csv sort_values (some [recA]) [recB, recC]).2 = [recB, recC].length :=
  ⟨by decide, save_returns_raw_length sort_values (some [recA]) [recB, recC] (by decide)⟩

/-! ### Claim C2 -/

/-- Session responses in which tweet_id 1 appears on two different pages. -/
def twoPageResponses : List FetchResult :=
  [.page [recA] (some "t1"), .page [recB] none]

/-- C2 counterexample: when the same identifier arrives on two different
pages of one session and the output file does not yet exist (first run),
`save_or_append_csv` writes the batch as-is: the persisted set holds two rows
with tweet_id 1, not exactly one. -/
theorem first_run_keeps_duplicate_ids :
    (search_tweets twoPageResponses "COPASA" 100 true 300 (.unsupported "e")
      "2025-10-05" "2025-10-12" none).df = [recA, recB] ∧
    recA.tweet_id = 1 ∧ recB.tweet_id = 1 ∧
    (((save_or_append_csv sort_values none [recA, recB]).1.getD []).countP
      (fun r => r.tweet_id == 1)) = 2 :=
  ⟨by decide, by decide, by decide, by decide⟩

/-- C2 (amended): whenever the prior file exists, the persisted merged set
has pairwise distinct identifiers (concat-then-dedup guarantees it even if
the batch repeats an id across pages); only on a first run, when the file is
absent, is the batch written without deduplication. -/
theorem merge_existing_ids_nodup (sortImpl : List Record → List Record)
    (hsort : sortValuesContract sortImpl) (old df : List Record) (hdf : df ≠ []) :
    (((save_or_append_csv sortImpl (some old) df).1.getD []).map
      (fun r => r.tweet_id)).Nodup := by
  rw [save_or_append_csv_of_ne_nil sortImpl (some old) df hdf]
  have hperm := (hsort (merged_records (some old) df)).1
  have hpm := hperm.map (fun r => r.tweet_id)
  exact hpm.symm.nodup (by simpa [merged_records] using
    nodup_ids_drop_duplicates (old ++ df))

/-- Witness for the amended C2: merging a duplicate-id batch into an existing
file yields pairwise distinct ids. -/
theorem merge_existing_ids_nodup_witness :
    ([recA, recB] : List Record) ≠ [] ∧
    (((save_or_append_csv sort_values (some [recC]) [recA, recB]).1.getD []).map
      (fun r => r.tweet_id)).Nodup :=
  ⟨by decide, merge_existing_ids_nodup sort_values sort_values_contract [recC]
    [recA, recB] (by decide)⟩

/-! ### Claim C3 -/

/-- C3: when a batch row shares its identifier with a row already persisted,
the persisted row's fields are the ones kept: every row of the merged output
whose identifier occurs in the old file equals the first old row with that
identifier — dedup keeps the first occurrence after concatenating existing
and new, so the existing record wins. -/
theorem merge_prefers_existing (sortImpl : List Record → List Record)
    (hsort : sortValuesContract sortImpl) (old df : List Record) (hdf : df ≠ [])
    (r rOld : Record)
    (hr : r ∈ (save_or_append_csv sortImpl (some old) df).1.getD [])
    (hfind : old.find? (fun s => s.tweet_id == r.tweet_id) = some rOld) :
    r = rOld := by
  rw [save_or_append_csv_of_ne_nil sortImpl (some old) df hdf] at hr
  have hperm := (hsort (merged_records (some old) df)).1
  have hmem : r ∈ merged_records (some old) df := hperm.mem_iff.mp hr
  have hdd : r ∈ drop_duplicates (old ++ df) := by
    simpa [merged_records] using hmem
  have hfirst := find?_drop_duplicates (old ++ df) r hdd
  rw [List.find?_append, hfind] at hfirst
  simpa using hfirst.symm

/-- Witness for C3: merging `recB` (same id, different text, fresher
engagement snapshot) into a file holding `recA` keeps `recA` unchanged. -/
theorem merge_prefers_existing_witness :
    recA ∈ (save_or_append_csv sort_values (some [recA]) [recB]).1.getD [] ∧
    [recA].find? (fun s => s.tweet_id == recA.tweet_id) = some recA ∧
    recA = recA :=
  ⟨by decide, by decide,
    merge_prefers_existing sort_values sort_values_contract [recA] [recB]
      (by decide) recA recA (by decide) (by decide)⟩

/-! ### Claim C10 -/

def recU : Record := ⟨5, "sem data", none⟩

/-- Implementation of the `sort_values` contract that swaps the one concrete
tie `[recD, recE]` (two rows with equal timestamps) and sorts stably
elsewhere.  It satisfies everything pandas documents for the default
`kind='quicksort'`, which is not a stable kind. -/
def sortSwapImpl (l : List Record) : List Record :=
  if l = [recD, recE] then [recE, recD] else List.insertionSort RecLE l

theorem sortSwapImpl_contract : sortValuesContract sortSwapImpl := by
  intro l
  unfold sortSwapImpl
  by_cases h : l = [recD, recE]
  · rw [if_pos h]
    subst h
    exact ⟨by decide, by decide⟩
  · rw [if_neg h]
    exact ⟨List.perm_insertionSort RecLE l, List.sorted_insertionSort RecLE l⟩

/-- C10 counterexample: stability is not guaranteed by the code.  The sort it
performs is the library's default `kind='quicksort'`, whose documented
guarantee is only "a permutation ordered by the key"; `sortSwapImpl` meets
that guarantee yet writes the two equal-timestamp rows `recD, recE` of a
first-run batch in swapped relative order, so "relative order among equal
entries preserved (stable sort)" fails. -/
theorem sort_not_stable_cex :
    sortValuesContract sortSwapImpl ∧
    recD.created_at = recE.created_at ∧ recD ≠ recE ∧
    (save_or_append_csv sortSwapImpl none [recD, recE]).1 = some [recE, recD] :=
  ⟨sortSwapImpl_contract, by decide, by decide, by decide⟩

/-- C10 (amended): for every non-empty batch, the written set is a
permutation of the merged records ordered by `RecLE`: descending by creation
timestamp where parseable, with unparseable timestamps after all parseable
ones; the relative order of equal or unparseable entries is not
guaranteed. -/
theorem save_output_sorted_desc_na_last (sortImpl : List Record → List Record)
    (hsort : sortValuesContract sortImpl) (oldFile : Option (List Record))
    (df : List Record) (hdf : df ≠ []) :
    ((save_or_append_csv sortImpl oldFile df).1.getD []).Sorted RecLE ∧
    ((save_or_append_csv sortImpl oldFile df).1.getD []).Perm
      (merged_records oldFile df) := by
  rw [save_or_append_csv_of_ne_nil sortImpl oldFile df hdf]
  exact ⟨(hsort _).2, (hsort _).1⟩

/-- Witness for the amended C10: a first-run batch with one undated and one
dated row is written as a sorted permutation (the dated row first). -/
theorem save_output_sorted_witness :
    ([recU, recD] : List Record) ≠ [] ∧
    (((save_or_append_csv sort_values none [recU, recD]).1.getD []).Sorted RecLE ∧
    ((save_or_append_csv sort_values none [recU, recD]).1.getD []).Perm
      (merged_records none [recU, recD])) :=
  ⟨by decide,
    save_output_sorted_desc_na_last sort_values sort_values_contract none
      [recU, recD] (by decide)⟩

/-! ### Retriever lemmas -/

theorem searchLoop_requests_all (pageSize : Nat) (paginate : Bool) (total_limit : Nat)
    (responses : List FetchResult) (p : Nat → Bool) :
    ∀ (collected : List Record) (pages : Nat) (reqs : List Nat),
      p pageSize = true → reqs.all p = true →
      ((searchLoop pageSize paginate total_limit responses collected pages
        reqs).requests).all p = true := by
  induction responses with
  | nil =>
    intro collected pages reqs hps hreqs
    simp [searchLoop, List.all_append, hreqs, hps]
  | cons resp rest ih =>
    intro collected pages reqs hps hreqs
    cases resp with
    | err => simp [searchLoop, List.all_append, hreqs, hps]
    | page items tok =>
      simp only [searchLoop]
      by_cases hi : items.isEmpty
      · rw [if_pos hi]
        simp [List.all_append, hreqs, hps]
      · rw [if_neg hi]
        cases paginate with
        | false => simp [List.all_append, hreqs, hps]
        | true =>
          simp only [Bool.not_true, Bool.false_eq_true, if_false]
          cases tok with
          | none => simp [List.all_append, hreqs, hps]
          | some t =>
            by_cases hl : total_limit ≤ (collected ++ items).length
            · rw [if_pos hl]
              simp [List.all_append, hreqs, hps]
            · rw [if_neg hl]
              exact ih _ _ _ hps (by simp [List.all_append, hreqs, hps])

/-! ### Claim C7 -/

/-- C7: every fetch issued by `search_tweets` requests at most 100 items —
the page size passed to each `search_recent_tweets` call is
`min(max_results, 100)` — and in particular a requested page size of 500
issues requests of exactly 100 per call. -/
theorem search_requests_at_most_100 (responses : List FetchResult) (query : String)
    (max_results : Nat) (paginate : Bool) (total_limit : Nat) (counts_info : CountsInfo)
    (start_time end_time : String) (since_id : Option Nat) :
    ((search_tweets responses query max_results paginate total_limit counts_info
        start_time end_time since_id).requests).all (fun q => decide (q ≤ 100)) = true ∧
    ((search_tweets responses query 500 paginate total_limit counts_info
        start_time end_time since_id).requests).all (fun q => q == 100) = true := by
  constructor
  · exact searchLoop_requests_all (min max_results 100) paginate total_limit responses
      (fun q => decide (q ≤ 100)) [] 0 []
      (decide_eq_true (Nat.min_le_right max_results 100)) rfl
  · exact searchLoop_requests_all (min 500 100) paginate total_limit responses
      (fun q => q == 100) [] 0 [] rfl rfl

/-! ### Claim C5 -/

def respsExhausted : List FetchResult := [.page [recC] none]

def respsErrored : List FetchResult := [.page [recC] (some "tok"), .err]

/-- C5 counterexample: the returned metadata does not let the caller
distinguish the terminal condition.  A session that ends exhausted (a full
page with no continuation token) and a session that ends errored (the same
page with a token, then a fetch failure) return identical `df` and identical
metadata, while their terminal reasons differ. -/
theorem meta_hides_terminal_reason :
    (search_tweets respsExhausted "COPASA" 100 true 300 (.unsupported "e")
      "2025-10-05" "2025-10-12" none).df
      = (search_tweets respsErrored "COPASA" 100 true 300 (.unsupported "e")
        "2025-10-05" "2025-10-12" none).df ∧
    (search_tweets respsExhausted "COPASA" 100 true 300 (.unsupported "e")
      "2025-10-05" "2025-10-12" none).meta
      = (search_tweets respsErrored "COPASA" 100 true 300 (.unsupported "e")
        "2025-10-05" "2025-10-12" none).meta ∧
    (search_tweets respsExhausted "COPASA" 100 true 300 (.unsupported "e")
      "2025-10-05" "2025-10-12" none).reason = .exhausted ∧
    (search_tweets respsErrored "COPASA" 100 true 300 (.unsupported "e")
      "2025-10-05" "2025-10-12" none).reason = .errored :=
  ⟨by decide, by decide, by decide, by decide⟩

/-- C5 (amended): the session metadata records the run's counters and echoes
its configuration — `collected` equals the length of the returned batch, and
query, pagination flag, total limit, counts-endpoint result, window bounds
and since-id are reproduced verbatim — but it does not record the terminal
reason, so exhausted and errored sessions are not always distinguishable
from it. -/
theorem meta_records_configuration (responses : List FetchResult) (query : String)
    (max_results : Nat) (paginate : Bool) (total_limit : Nat) (counts_info : CountsInfo)
    (start_time end_time : String) (since_id : Option Nat) :
    (search_tweets responses query max_results paginate total_limit counts_info
        start_time end_time since_id).meta.collected
      = (search_tweets responses query max_results paginate total_limit counts_info
        start_time end_time since_id).df.length ∧
    (search_tweets responses query max_results paginate total_limit counts_info
        start_time end_time since_id).meta.query = query ∧
    (search_tweets responses query max_results paginate total_limit counts_info
        start_time end_time since_id).meta.pagination_used = paginate ∧
    (search_tweets responses query max_results paginate total_limit counts_info
        start_time end_time since_id).meta.total_limit = total_limit ∧
    (search_tweets responses query max_results paginate total_limit counts_info
        start_time end_time since_id).meta.counts_endpoint = counts_info ∧
    (search_tweets responses query max_results paginate total_limit counts_info
        start_time end_time since_id).meta.start_time = start_time ∧
    (search_tweets responses query max_results paginate total_limit counts_info
        start_time end_time since_id).meta.end_time = end_time ∧
    (search_tweets responses query max_results paginate total_limit counts_info
        start_time end_time since_id).meta.since_id = since_id :=
  ⟨rfl, rfl, rfl, rfl, rfl, rfl, rfl, rfl⟩

/-! ### Claim C8 -/

/-- C8 counterexample: after a session whose very first fetch fails, `main`
still runs `add_usage(0, cap)`, which rewrites the ledger file and creates a
current-period entry — starting from a valid empty ledger, the persisted
ledger afterwards is not the one from before, contradicting "the Usage
Ledger is left unchanged (no entry created or modified, no write
performed)". -/
theorem first_fetch_failure_still_writes_ledger :
    (main_tail sort_values "2025-10" 1500
        (search_tweets [.err] "COPASA" 100 true 300 (.unsupported "e")
          "2025-10-05" "2025-10-12" none).df
        ⟨none, .valid []⟩).1.usageFile
      = .valid [("2025-10", ⟨0, 1500⟩)] ∧
    FileContent.valid [("2025-10", (⟨0, 1500⟩ : MonthData))] ≠ .valid [] :=
  ⟨by decide, by decide⟩

/-- C8 (amended): when the very first fetch fails, the session returns an
empty batch with terminal reason errored; `save_or_append_csv` is then
invoked with that empty batch and returns 0 without touching the record
file; `add_usage(0, cap)` still runs, rewriting the ledger file — it leaves
the period's retrieved count unchanged but creates a period entry (with
retrieved 0) if absent and overwrites the period's cap. -/
theorem first_fetch_failure_effects (sortImpl : List Record → List Record)
    (usage_key : String) (monthly_cap : Int) (rest : List FetchResult) (st : Store)
    (query : String) (max_results : Nat) (paginate : Bool) (total_limit : Nat)
    (counts_info : CountsInfo) (start_time end_time : String) (since_id : Option Nat) :
    (search_tweets (.err :: rest) query max_results paginate total_limit counts_info
        start_time end_time since_id).df = [] ∧
    (search_tweets (.err :: rest) query max_results paginate total_limit counts_info
        start_time end_time since_id).reason = .errored ∧
    (main_tail sortImpl usage_key monthly_cap
        (search_tweets (.err :: rest) query max_results paginate total_limit counts_info
          start_time end_time since_id).df st).2 = 0 ∧
    (main_tail sortImpl usage_key monthly_cap
        (search_tweets (.err :: rest) query max_results paginate total_limit counts_info
          start_time end_time since_id).df st).1.csvFile = st.csvFile ∧
    (main_tail sortImpl usage_key monthly_cap
        (search_tweets (.err :: rest) query max_results paginate total_limit counts_info
          start_time end_time since_id).df st).1.usageFile
      = .valid (add_usage_pure (load_usage st.usageFile) usage_key 0 monthly_cap) ∧
    retrievedD (load_usage
        ((main_tail sortImpl usage_key monthly_cap
          (search_tweets (.err :: rest) query max_results paginate total_limit counts_info
            start_time end_time since_id).df st).1.usageFile)) usage_key
      = retrievedD (load_usage st.usageFile) usage_key := by
  refine ⟨rfl, rfl, rfl, rfl, rfl, ?_⟩
  show retrievedD (add_usage_pure (load_usage st.usageFile) usage_key 0 monthly_cap)
    usage_key = _
  rw [retrievedD_add_usage_pure]
  omega
